import Mathlib

/-!
Verification of the SVG/EMF → PPTX conversion pipeline.

Shallow embedding of the repository's TypeScript sources:
* the slide-layout fitter `calculateOptimalImageSize`, the slide layout
  table `SLIDE_LAYOUTS`, the string-level compatibility pass
  `ensureBasicSvgCompatibility` and the per-file pipeline
  `processSvgForPptx` (route handler source, `part_000`);
* the DOM-level sanitizer `SVGSanitizer` — clip-path removal, CSS
  inlining, identifier simplification, coordinate-precision reduction,
  font substitution and attribute normalization (`part_002`).

Modelling conventions:
* JavaScript IEEE-754 doubles are modelled by exact rationals `ℚ`.
  All concrete inputs appearing in theorems stay far from any rounding
  tie, so branch decisions and comparisons agree with the float code.
  Division by zero (JS `Infinity`) has no `ℚ` counterpart; theorems about
  the fitter therefore carry positivity hypotheses on intrinsic sizes.
* `parseFloat` results that are `NaN` are modelled as `none`; the
  non-finite literal `"Infinity"`, which JS `parseFloat` accepts, is
  likewise modelled as `none` (no theorem below touches that corner).
* The DOM tree built by `jsdom`/`DOMParser` is modelled by `XNode`;
  external collaborators (DOMPurify, the XML parser and serializer,
  SVGO) are abstracted as function parameters.
* String scanning (the route's regexes) is reimplemented on `List Char`
  with the exact first-match semantics of the JS regexes in the source.
-/

/-! ## List-of-characters string utilities -/

/-- `listStartsWith pat l` : does `l` start with `pat`? -/
def listStartsWith (pat l : List Char) : Bool :=
  match pat, l with
  | [], _ => true
  | _ :: _, [] => false
  | p :: ps, c :: cs => p = c && listStartsWith ps cs

/-- Split `cs` at every (non-overlapping, leftmost) occurrence of the
nonempty separator `p :: ps`; mirrors `String.prototype.split` with a
plain-string separator.  The fuel argument (always instantiated with the
length of the scanned list, which bounds the recursion depth) keeps the
recursion structural so that the kernel can evaluate it. -/
def splitOnListAux (p : Char) (ps : List Char) : Nat → List Char → List Char → List (List Char)
  | _, [], acc => [acc.reverse]
  | 0, cs, acc => [acc.reverse ++ cs]
  | fuel + 1, c :: cs, acc =>
    if listStartsWith (p :: ps) (c :: cs) then
      acc.reverse :: splitOnListAux p ps fuel ((c :: cs).drop (ps.length + 1)) []
    else
      splitOnListAux p ps fuel cs (c :: acc)

/-- Split on a separator list (empty separator: no split). -/
def splitOnList (sep cs : List Char) : List (List Char) :=
  match sep with
  | [] => [cs]
  | p :: ps => splitOnListAux p ps cs.length cs []

/-- Substring test (`String.prototype.includes`). -/
def containsList (cs pat : List Char) : Bool :=
  match splitOnList pat cs with
  | [] => false
  | [_] => false
  | _ :: _ :: _ => true

/-- Join with separator. -/
def intercalateList (sep : List Char) : List (List Char) → List Char
  | [] => []
  | [x] => x
  | x :: y :: rest => x ++ sep ++ intercalateList sep (y :: rest)

/-- `String.prototype.replace` with a plain-string pattern: replace the
FIRST occurrence only. -/
def replaceFirstList (cs pat repl : List Char) : List Char :=
  match splitOnList pat cs with
  | [] => cs
  | [_] => cs
  | x :: y :: rest => x ++ repl ++ intercalateList pat (y :: rest)

/-- String-level wrappers. -/
def containsStr (s pat : String) : Bool := containsList s.toList pat.toList

def replaceFirstStr (s pat repl : String) : String :=
  String.mk (replaceFirstList s.toList pat.toList repl.toList)

/-! ## JS `parseFloat` on rationals -/

/-- Numeric value of a digit list (most significant first). -/
def digitsValue (ds : List Char) : ℕ :=
  ds.foldl (fun acc c => 10 * acc + c.toNat - 48) 0

/-- Value of a fractional digit list. -/
def fracValue (ds : List Char) : ℚ :=
  (digitsValue ds : ℚ) / (10 : ℚ) ^ ds.length

/-- Exponent suffix `e±ddd` of a JS decimal literal; an exponent marker
with no digits is ignored (the longest valid literal prefix wins). -/
def applyExpDigits (m : ℚ) (neg : Bool) (cs : List Char) : ℚ :=
  let ds := cs.takeWhile Char.isDigit
  if ds.isEmpty then m
  else if neg then m / (10 : ℚ) ^ digitsValue ds
  else m * (10 : ℚ) ^ digitsValue ds

def applyExpSigned (m : ℚ) : List Char → ℚ
  | '+' :: r => applyExpDigits m false r
  | '-' :: r => applyExpDigits m true r
  | r => applyExpDigits m false r

def applyExponent (m : ℚ) : List Char → ℚ
  | 'e' :: r => applyExpSigned m r
  | 'E' :: r => applyExpSigned m r
  | _ => m

/-- The unsigned part of JS `parseFloat`: longest prefix of the form
`digits [ . digits ] [ exponent ]`; `none` when no digits at all (NaN). -/
def parseFloatBody (cs : List Char) : Option ℚ :=
  let ip := cs.takeWhile Char.isDigit
  let r1 := cs.dropWhile Char.isDigit
  match r1 with
  | '.' :: r2 =>
    let fp := r2.takeWhile Char.isDigit
    if ip.isEmpty && fp.isEmpty then none
    else some (applyExponent ((digitsValue ip : ℚ) + fracValue fp) (r2.dropWhile Char.isDigit))
  | _ =>
    if ip.isEmpty then none
    else some (applyExponent (digitsValue ip : ℚ) r1)

def isJsWhitespace (c : Char) : Bool :=
  c = ' ' || c = '\t' || c = '\n' || c = '\r' || c = Char.ofNat 11 || c = Char.ofNat 12

/-- JS `parseFloat` (finite results only; `NaN` and `Infinity` ↦ `none`). -/
def jsParseFloat (s : String) : Option ℚ :=
  match s.toList.dropWhile isJsWhitespace with
  | '+' :: r => parseFloatBody r
  | '-' :: r => (parseFloatBody r).map Neg.neg
  | r => parseFloatBody r

/-- `parseFloat(v.replace(/[^\d.]/g, ''))` — the route strips every
character that is not an ASCII digit or a dot before parsing. -/
def parseFloatStripped (s : String) : Option ℚ :=
  parseFloatBody (s.toList.filter (fun c => c.isDigit || c = '.'))

/-! ## Attribute-regex capture and viewBox splitting -/

/-- First capture of `key="([^"]*)"` (for quote character `q`): text
between the first occurrence of `key="` and the next `"`, provided that
closing quote exists. -/
def regexAttrCapture (s key : String) (q : Char) : Option String :=
  match splitOnList (key.toList ++ ['='] ++ [q]) s.toList with
  | [] => none
  | [_] => none
  | _ :: y :: rest =>
    let tail := intercalateList (key.toList ++ ['='] ++ [q]) (y :: rest)
    if tail.contains q then some (String.mk (tail.takeWhile (· ≠ q))) else none

/-- `svgContent.match(/key="([^"]*)"/) || svgContent.match(/key='([^']*)'/)`. -/
def attrCapture (s key : String) : Option String :=
  match regexAttrCapture s key '"' with
  | some v => some v
  | none => regexAttrCapture s key (Char.ofNat 39)

def isWsComma (c : Char) : Bool := isJsWhitespace c || c = ','

/-- `split(/[\s,]+/)`: split on maximal runs of whitespace/commas,
keeping a leading/trailing empty token exactly as JS does (fuel as in
`splitOnListAux`). -/
def splitWsCommaAux : Nat → List Char → List Char → List String
  | _, [], acc => [String.mk acc.reverse]
  | 0, cs, acc => [String.mk (acc.reverse ++ cs)]
  | fuel + 1, c :: cs, acc =>
    if isWsComma c then
      String.mk acc.reverse :: splitWsCommaAux fuel (cs.dropWhile isWsComma) []
    else
      splitWsCommaAux fuel cs (c :: acc)

def splitWsComma (s : String) : List String := splitWsCommaAux s.toList.length s.toList []

/-! ## Slide layouts and the layout fitter (`part_000`, lines 112-195) -/

structure SlideLayout where
  width : ℚ
  height : ℚ
  margin : ℚ
  contentWidth : ℚ
  contentHeight : ℚ
deriving DecidableEq, Repr

structure SlideLayoutTable where
  widescreen : SlideLayout
  standard : SlideLayout

/-- `SLIDE_LAYOUTS` constant from the route. -/
def SLIDE_LAYOUTS : SlideLayoutTable :=
  { widescreen := { width := 10, height := 5.625, margin := 0.5, contentWidth := 9, contentHeight := 4.625 }
    standard := { width := 10, height := 7.5, margin := 0.5, contentWidth := 9, contentHeight := 6.5 } }

/-- The record returned by `calculateOptimalImageSize`. -/
structure ImageSize where
  x : ℚ
  y : ℚ
  w : ℚ
  h : ℚ
  originalWidth : ℚ
  originalHeight : ℚ
  aspectRatio : ℚ
deriving DecidableEq, Repr

/-- The fitting core of `calculateOptimalImageSize` (lines 165-195):
aspect-ratio comparison, branch, then the `Math.max`/`Math.min` clamps. -/
def fitImage (originalWidth originalHeight : ℚ) (layout : SlideLayout) : ImageSize :=
  let aspectRatio := originalWidth / originalHeight
  let slideAspectRatio := layout.contentWidth / layout.contentHeight
  if slideAspectRatio < aspectRatio then
    -- width-bound: `aspectRatio > slideAspectRatio`
    { x := max 0.2 layout.margin
      y := max 0.2 (layout.margin + (layout.contentHeight - layout.contentWidth / aspectRatio) / 2)
      w := min layout.contentWidth (layout.width - 0.4)
      h := min (layout.contentWidth / aspectRatio) (layout.height - 0.4)
      originalWidth := originalWidth
      originalHeight := originalHeight
      aspectRatio := aspectRatio }
  else
    -- height-bound
    { x := max 0.2 (layout.margin + (layout.contentWidth - layout.contentHeight * aspectRatio) / 2)
      y := max 0.2 layout.margin
      w := min (layout.contentHeight * aspectRatio) (layout.width - 0.4)
      h := min layout.contentHeight (layout.height - 0.4)
      originalWidth := originalWidth
      originalHeight := originalHeight
      aspectRatio := aspectRatio }

/-- Size extraction of `calculateOptimalImageSize` (lines 139-163):
width/height attributes first; the viewBox only in the `else if`; both
absent (or the viewBox too short) keeps the 576×432 defaults.
`none` models the case in which a `NaN`/`Infinity` entry of a long-enough
viewBox is assigned, contaminating the subsequent float arithmetic. -/
def extractSvgSize (svgContent : String) : Option (ℚ × ℚ) :=
  match attrCapture svgContent "width", attrCapture svgContent "height" with
  | some wS, some hS =>
    match parseFloatStripped wS, parseFloatStripped hS with
    | some w, some h => some (w, h)
    | some _, none => some (576, 432)
    | none, some _ => some (576, 432)
    | none, none => some (576, 432)
  | wM, hM =>
    -- at least one of the width/height regexes failed
    match wM, hM, attrCapture svgContent "viewBox" with
    | some _, some _, _ => some (576, 432)  -- unreachable here
    | _, _, some vb =>
      let nums := (splitWsComma vb).map jsParseFloat
      if 4 ≤ nums.length then
        match nums.get? 2, nums.get? 3 with
        | some (some w), some (some h) => some (w, h)
        | _, _ => none
      else some (576, 432)
    | _, _, none => some (576, 432)

/-- `calculateOptimalImageSize` (lines 138-195). -/
def calculateOptimalImageSize (svgContent : String) (layout : SlideLayout) : Option ImageSize :=
  (extractSvgSize svgContent).map fun wh => fitImage wh.1 wh.2 layout

/-! ## Number-to-string (JS template interpolation of a finite double) -/

/-- Left-pad with zeros to `k` digits. -/
def padLeftZeros (k : Nat) (s : String) : String :=
  String.mk (List.replicate (k - s.toList.length) '0') ++ s

/-- Rendering of a nonnegative finite JS number whose value is an exact
decimal (the only values reaching this point below arise from parsing
decimal literals): integer part, then the minimal fractional digits.
Mirrors `Number.prototype.toString` on such values; values needing more
than 40 fractional digits cannot arise from the inputs in this file. -/
def jsNumToStringNonneg (q : ℚ) : String :=
  if q.den = 1 then toString q.num
  else
    match (List.range 40).find? (fun k => (q * (10 : ℚ) ^ k).den = 1) with
    | some k =>
      let n := (q * (10 : ℚ) ^ k).num.toNat
      toString (n / 10 ^ k) ++ "." ++ padLeftZeros k (toString (n % 10 ^ k))
    | none => toString q.num ++ "/" ++ toString q.den

def jsNumToString (q : ℚ) : String :=
  if q < 0 then "-" ++ jsNumToStringNonneg (-q) else jsNumToStringNonneg q

/-! ## `ensureBasicSvgCompatibility` (`part_000`, lines 81-110) -/

def svgNamespaceDecl : String := "xmlns=\"http://www.w3.org/2000/svg\""

/-- The final PowerPoint-specific string pass: add the SVG namespace
after the first `<svg` when the namespace declaration substring is
absent, then synthesize a `viewBox` from the width/height attribute
regexes when no `viewBox=` substring occurs anywhere. -/
def ensureBasicSvgCompatibility (svgContent : String) : String :=
  let s1 :=
    if containsStr svgContent svgNamespaceDecl then svgContent
    else replaceFirstStr svgContent "<svg" ("<svg " ++ svgNamespaceDecl)
  if containsStr s1 "viewBox=" then s1
  else
    match attrCapture s1 "width", attrCapture s1 "height" with
    | some wS, some hS =>
      match jsParseFloat wS, jsParseFloat hS with
      | some w, some h =>
        replaceFirstStr s1 "<svg"
          ("<svg viewBox=\"0 0 " ++ jsNumToString w ++ " " ++ jsNumToString h ++ "\"")
      | _, _ => s1
    | _, _ => s1

/-! ## Per-file SVG pipeline `processSvgForPptx` (`part_000`, lines 32-79)

The sanitizer (`sanitizeSvgForPowerPoint`) and the SVGO optimizer are
collaborator calls; they enter the model as function parameters.  The
optimizer may throw (modelled with `Except`); the `catch` keeps the
sanitized version.  The outer `try`/`catch` of the source is
unreachable in the model because the sanitizer catches internally and
the remaining steps are pure string operations. -/

structure SvgProcessingOptions where
  optimization : String
  sanitization : Bool
deriving DecidableEq, Repr

def processSvgForPptx (sanitizeFn : String → String)
    (optimizeFn : String → String → Except String String)
    (svgContent : String) (options : SvgProcessingOptions) : String :=
  let processedSvg := if options.sanitization then sanitizeFn svgContent else svgContent
  let afterOptimize :=
    match optimizeFn options.optimization processedSvg with
    | Except.ok r => r
    | Except.error _ => processedSvg
  ensureBasicSvgCompatibility afterOptimize

/-- Complexity heuristic of the route handler (lines 262-269): documents
containing `clipPath` or `<style` select `compatible`, others
`conservative`; sanitization is always on. -/
def chooseProcessingOptions (svgContent : String) : SvgProcessingOptions :=
  if containsStr svgContent "clipPath" || containsStr svgContent "<style" then
    { optimization := "compatible", sanitization := true }
  else
    { optimization := "conservative", sanitization := true }

/-! ## EMF passthrough (`part_000`, lines 197-226 and 294-317) -/

def base64Alphabet : List Char :=
  "ABCDEFGHIJKLMNOPQRSTUVWXYZabcdefghijklmnopqrstuvwxyz0123456789+/".toList

def b64Char (n : Nat) : Char := base64Alphabet.getD n 'A'

/-- `Buffer.prototype.toString('base64')` (RFC 4648 with padding). -/
def base64Encode : List Nat → String
  | [] => ""
  | [b0] =>
    String.mk [b64Char (b0 / 4), b64Char (b0 % 4 * 16)] ++ "=="
  | [b0, b1] =>
    String.mk [b64Char (b0 / 4), b64Char (b0 % 4 * 16 + b1 / 16), b64Char (b1 % 16 * 4)] ++ "="
  | b0 :: b1 :: b2 :: rest =>
    String.mk [b64Char (b0 / 4), b64Char (b0 % 4 * 16 + b1 / 16),
               b64Char (b1 % 16 * 4 + b2 / 64), b64Char (b2 % 64)] ++ base64Encode rest

/-- `processEmfForPptx`: base64-encode the raw bytes into a data URI.
The `catch` branch of the source (fallback SVG) is unreachable in the
model, since encoding a byte list cannot fail. -/
def processEmfForPptx (emfBuffer : List Nat) : String × String :=
  ("data:image/x-emf;base64," ++ base64Encode emfBuffer, "emf")

/-- The fixed virtual document the route uses to size EMF slides
(line 301). -/
def emfVirtualSvg : String :=
  "<svg viewBox=\"0 0 1600 900\" width=\"1600\" height=\"900\"></svg>"

/-- Placement of an EMF slide as computed by the route (lines 298-303):
the EMF bytes are not consulted, only the fixed virtual document. -/
def emfSlidePlacement (_emfBuffer : List Nat) : Option ImageSize :=
  calculateOptimalImageSize emfVirtualSvg SLIDE_LAYOUTS.widescreen

/-- `fileName.split('.').pop()?.toLowerCase()`. -/
def fileExtension (name : String) : Option String :=
  ((splitOnList ['.'] name.toList).getLast?).map fun l => String.mk (l.map Char.toLower)

/-! ## DOM model for the sanitizer (`part_002`)

`XNode` models the element tree produced by `DOMParser`; `text` nodes
carry character data.  Attribute lists are ordered as in the document;
parsed documents never contain duplicate attribute names. -/

structure XAttr where
  name : String
  value : String
deriving DecidableEq, Repr

inductive XNode where
  | elem (tag : String) (attrs : List XAttr) (children : List XNode)
  | text (s : String)

/-- `getAttribute` (`none` = attribute absent). -/
def getAttrVal (attrs : List XAttr) (n : String) : Option String :=
  (attrs.find? (fun a => a.name = n)).map XAttr.value

/-- `hasAttribute`. -/
def hasAttr (attrs : List XAttr) (n : String) : Bool :=
  (attrs.find? (fun a => a.name = n)).isSome

/-- `setAttribute`: in-place update keeps the attribute position, a new
attribute is appended at the end. -/
def setAttrVal (attrs : List XAttr) (n v : String) : List XAttr :=
  if hasAttr attrs n then attrs.map (fun a => if a.name = n then { name := n, value := v } else a)
  else attrs ++ [{ name := n, value := v }]

/-- `removeAttribute`. -/
def removeAttrVal (attrs : List XAttr) (n : String) : List XAttr :=
  attrs.filter (fun a => a.name ≠ n)

/-- Ordered-association-list update used for plain JS objects
(`obj[k] = v` keeps the insertion position of an existing key). -/
def updateAssoc {α : Type} (m : List (String × α)) (k : String) (v : α) : List (String × α) :=
  if (m.find? (fun p => p.1 = k)).isSome then
    m.map (fun p => if p.1 = k then (k, v) else p)
  else m ++ [(k, v)]

def lookupAssoc {α : Type} (m : List (String × α)) (k : String) : Option α :=
  (m.find? (fun p => p.1 = k)).map Prod.snd

/-! Apply `f` to the attribute list of every element of the forest
(preorder); used to model passes that run over a static
`querySelectorAll` snapshot of the context element's descendants. -/
mutual
def mapAttrsNode (f : String → List XAttr → List XAttr) : XNode → XNode
  | XNode.text s => XNode.text s
  | XNode.elem t as ch => XNode.elem t (f t as) (mapAttrsList f ch)
def mapAttrsList (f : String → List XAttr → List XAttr) : List XNode → List XNode
  | [] => []
  | n :: ns => mapAttrsNode f n :: mapAttrsList f ns
end

/-- Apply `f` to every descendant element of the context element,
leaving the context element's own attributes untouched
(`querySelectorAll` never matches the context element itself). -/
def mapDesc (f : String → List XAttr → List XAttr) : XNode → XNode
  | XNode.elem t as ch => XNode.elem t as (mapAttrsList f ch)
  | XNode.text s => XNode.text s

/-! Remove every descendant element with tag `t0` (with its subtree),
modelling `node.remove()` on a static snapshot. -/
mutual
def remTagNode (t0 : String) : XNode → XNode
  | XNode.text s => XNode.text s
  | XNode.elem t as ch => XNode.elem t as (remTagList t0 ch)
def remTagList (t0 : String) : List XNode → List XNode
  | [] => []
  | n :: ns =>
    match n with
    | XNode.text s => XNode.text s :: remTagList t0 ns
    | XNode.elem t _ _ =>
      if t = t0 then remTagList t0 ns
      else remTagNode t0 n :: remTagList t0 ns
end

def removeDescTag (t0 : String) : XNode → XNode
  | XNode.elem t as ch => XNode.elem t as (remTagList t0 ch)
  | XNode.text s => XNode.text s

/-! `textContent`: concatenation of all text data in the subtree. -/
mutual
def textContentNode : XNode → String
  | XNode.text s => s
  | XNode.elem _ _ ch => textContentList ch
def textContentList : List XNode → String
  | [] => ""
  | n :: ns => textContentNode n ++ textContentList ns
end

/-! Attribute lists of the node's element and of every descendant
element, in document (preorder) order. -/
mutual
def allElemsNode : XNode → List (List XAttr)
  | XNode.text _ => []
  | XNode.elem _ as ch => as :: allElemsList ch
def allElemsList : List XNode → List (List XAttr)
  | [] => []
  | n :: ns => allElemsNode n ++ allElemsList ns
end

/-! Does `p tag attrs` hold for every descendant element (the context
element itself excluded, matching `querySelectorAll` scope)? -/
mutual
def allDescNode (p : String → List XAttr → Bool) : XNode → Bool
  | XNode.text _ => true
  | XNode.elem t as ch => p t as && allDescList p ch
def allDescList (p : String → List XAttr → Bool) : List XNode → Bool
  | [] => true
  | n :: ns => allDescNode p n && allDescList p ns
end

def allDesc (p : String → List XAttr → Bool) : XNode → Bool
  | XNode.elem _ _ ch => allDescList p ch
  | XNode.text _ => true

def childNodes : XNode → List XNode
  | XNode.elem _ _ ch => ch
  | XNode.text _ => []

/-- Value of attribute `a` on the `i`-th child element of `n`
(observation helper for stating concrete facts about documents). -/
def attrValAt (n : XNode) (i : Nat) (a : String) : Option String :=
  match (childNodes n).get? i with
  | some (XNode.elem _ as _) => getAttrVal as a
  | _ => none

/-! ### `SVGSanitizer.removeClipPaths` (lines 167-216) -/

/-- The per-element step: elements carrying a (truthy, i.e. nonempty)
`clip-path` attribute lose it; the inner `clipPath`-definition lookup of
the source only logs and does not modify the tree. -/
def clipAttrStep (_t : String) (as : List XAttr) : List XAttr :=
  match getAttrVal as "clip-path" with
  | some v => if v ≠ "" then removeAttrVal as "clip-path" else as
  | none => as

def removeClipPaths (svgElement : XNode) : XNode :=
  removeDescTag "clipPath" (mapDesc clipAttrStep svgElement)

/-! ### `SVGSanitizer.inlineCssStyles` (lines 221-300) -/

def braceOpen : Char := Char.ofNat 123
def braceClose : Char := Char.ofNat 125

def expectChars (pat cs : List Char) : Option (List Char) :=
  if listStartsWith pat cs then some (cs.drop pat.length) else none

/-- Strip a leading match of `^\s*\/\*\s*<!\[CDATA\[\s*\*\/`. -/
def stripCdataPrefix (cs : List Char) : List Char :=
  match expectChars "/*".toList (cs.dropWhile isJsWhitespace) with
  | none => cs
  | some r1 =>
    match expectChars "<![CDATA[".toList (r1.dropWhile isJsWhitespace) with
    | none => cs
    | some r2 =>
      match expectChars "*/".toList (r2.dropWhile isJsWhitespace) with
      | none => cs
      | some r3 => r3

/-- Strip a trailing match of `\*\/\s*\]\]>\s*\*\/\s*$` (checked on the
reversed character list). -/
def stripCdataSuffix (cs : List Char) : List Char :=
  let r := cs.reverse
  match expectChars ['/', '*'] (r.dropWhile isJsWhitespace) with
  | none => cs
  | some r1 =>
    match expectChars ['>', ']', ']'] (r1.dropWhile isJsWhitespace) with
    | none => cs
    | some r2 =>
      match expectChars ['/', '*'] (r2.dropWhile isJsWhitespace) with
      | none => cs
      | some r3 => r3.reverse

/-- The CDATA-wrapper cleanup regex of the source (both alternative
branches of the anchored alternation, applied globally). -/
def cleanCssText (s : String) : List Char :=
  stripCdataSuffix (stripCdataPrefix s.toList)

/-- All matches of `([^{]+)\{([^}]+)\}` (selector text, body text), with
the exact leftmost-match/backtracking behaviour of the JS regex engine:
a candidate selector run is abandoned when no nonempty body follows its
brace, and scanning then resumes just after that brace. -/
def scanRulesAux : Nat → List Char → List (String × String)
  | _, [] => []
  | 0, _ => []
  | fuel + 1, cs =>
    let pre := cs.takeWhile (· ≠ braceOpen)
    match cs.dropWhile (· ≠ braceOpen) with
    | [] => []
    | _ :: after =>
      if pre.isEmpty then scanRulesAux fuel after
      else
        let body := after.takeWhile (· ≠ braceClose)
        match after.dropWhile (· ≠ braceClose) with
        | [] => []
        | _ :: tail2 =>
          if body.isEmpty then scanRulesAux fuel after
          else (String.mk pre, String.mk body) :: scanRulesAux fuel tail2

def scanRules (cs : List Char) : List (String × String) :=
  scanRulesAux cs.length cs

def listTrim (cs : List Char) : List Char :=
  ((cs.dropWhile isJsWhitespace).reverse.dropWhile isJsWhitespace).reverse

def strTrim (s : String) : String := String.mk (listTrim s.toList)

/-- `properties.split(';')`, then each `prop.split(':')` trimmed, first
two components kept when both truthy; later duplicates of a key
overwrite in place. -/
def parseCssProps (body : String) : List (String × String) :=
  (splitOnList [';'] body.toList).foldl
    (fun acc part =>
      match (splitOnList [':'] part).map (fun l => String.mk (listTrim l)) with
      | k :: v :: _ => if k ≠ "" && v ≠ "" then updateAssoc acc k v else acc
      | _ => acc)
    []

/-- The fixed CSS-property → SVG-attribute table (identity on its
domain). -/
def cssToSvgAttribute (p : String) : Option String :=
  lookupAssoc
    [("fill", "fill"), ("stroke", "stroke"), ("stroke-width", "stroke-width"),
     ("stroke-linecap", "stroke-linecap"), ("stroke-linejoin", "stroke-linejoin"),
     ("stroke-miterlimit", "stroke-miterlimit"), ("opacity", "opacity"),
     ("fill-opacity", "fill-opacity"), ("stroke-opacity", "stroke-opacity"),
     ("font-family", "font-family"), ("font-size", "font-size"),
     ("font-weight", "font-weight"), ("text-anchor", "text-anchor")] p

/-- Apply mapped properties to an element, never overriding an
explicitly present attribute. -/
def applyCssProps (props : List (String × String)) (as : List XAttr) : List XAttr :=
  props.foldl
    (fun acc pv =>
      match cssToSvgAttribute pv.1 with
      | some a => if hasAttr acc a then acc else acc ++ [{ name := a, value := pv.2 }]
      | none => acc)
    as

/-- A simple selector: optional tag name, optional single class. -/
structure SimpleSel where
  tag : Option String
  cls : Option String

def isSelNameChar (c : Char) : Bool := c.isAlphanum || c = '-' || c = '_'

/-- Parse `tag`, `.cls` or `tag.cls`; `none` for anything the modelled
selector grammar does not cover (the source's minimal grammar: tag,
class and simple descendant selectors; an unsupported selector selects
nothing). -/
def parseSimpleSel (s : String) : Option SimpleSel :=
  let cs := s.toList
  let tagPart := cs.takeWhile isSelNameChar
  let rest := cs.drop tagPart.length
  match rest with
  | [] => if tagPart.isEmpty then none else some { tag := some (String.mk tagPart), cls := none }
  | '.' :: clsPart =>
    if clsPart.all isSelNameChar && ¬ clsPart.isEmpty then
      some { tag := if tagPart.isEmpty then none else some (String.mk tagPart),
             cls := some (String.mk clsPart) }
    else none
  | _ => none

/-- Class-attribute token list (whitespace-separated). -/
def classTokens (as : List XAttr) : List String :=
  match getAttrVal as "class" with
  | some v => (splitWsCommaAux v.toList.length v.toList []).filter (· ≠ "")
  | none => []

def matchesSimple (sel : SimpleSel) (t : String) (as : List XAttr) : Bool :=
  (match sel.tag with | some tg => tg = t | none => true) &&
  (match sel.cls with | some c => (classTokens as).contains c | none => true)

/-- One comma-free selector: a simple selector, or a descendant pair. -/
structure CompiledSel where
  anc : Option SimpleSel
  target : SimpleSel

def compileSelPart (s : String) : Option CompiledSel :=
  match (splitWsCommaAux s.toList.length s.toList []).filter (· ≠ "") with
  | [one] => (parseSimpleSel one).map fun t => { anc := none, target := t }
  | [a, b] =>
    match parseSimpleSel a, parseSimpleSel b with
    | some sa, some sb => some { anc := some sa, target := sb }
    | _, _ => none
  | _ => none

/-! Apply one compiled selector rule to the forest; `ancSeen` records
whether some proper ancestor (including the context root) matched the
ancestor part of a descendant selector. -/
mutual
def applySelNode (c : CompiledSel) (props : List (String × String)) (ancSeen : Bool) : XNode → XNode
  | XNode.text s => XNode.text s
  | XNode.elem t as ch =>
    let hit :=
      match c.anc with
      | none => matchesSimple c.target t as
      | some _ => ancSeen && matchesSimple c.target t as
    let as2 := if hit then applyCssProps props as else as
    let ancSeen2 :=
      match c.anc with
      | none => ancSeen
      | some sa => ancSeen || matchesSimple sa t as
    XNode.elem t as2 (applySelList c props ancSeen2 ch)
def applySelList (c : CompiledSel) (props : List (String × String)) (ancSeen : Bool) : List XNode → List XNode
  | [] => []
  | n :: ns => applySelNode c props ancSeen n :: applySelList c props ancSeen ns
end

/-- Apply a CSS rule (selector text, property map) to the descendants of
the context element.  Comma groups are applied left to right; a selector
the modelled grammar cannot parse selects nothing. -/
def applyCssRule (sel : String) (props : List (String × String)) : XNode → XNode
  | XNode.elem t as ch =>
    let parts := (splitOnList [','] sel.toList).map (fun l => String.mk (listTrim l))
    XNode.elem t as
      (parts.foldl
        (fun forest part =>
          match compileSelPart part with
          | some c =>
            let rootAnc :=
              match c.anc with
              | some sa => matchesSimple sa t as
              | none => false
            applySelList c props rootAnc forest
          | none => forest)
        ch)
  | XNode.text s => XNode.text s

/-! `textContent` of every descendant `style` element, in document
order. -/
mutual
def styleTextsNode : XNode → List String
  | XNode.text _ => []
  | XNode.elem t _ ch =>
    (if t = "style" then [textContentList ch] else []) ++ styleTextsList ch
def styleTextsList : List XNode → List String
  | [] => []
  | n :: ns => styleTextsNode n ++ styleTextsList ns
end

def styleTexts : XNode → List String
  | XNode.elem _ _ ch => styleTextsList ch
  | XNode.text _ => []

def inlineCssStyles (svgElement : XNode) : XNode :=
  let cssRules :=
    (styleTexts svgElement).foldl
      (fun m txt =>
        (scanRules (cleanCssText txt)).foldl
          (fun m2 rule => updateAssoc m2 (strTrim rule.1) (parseCssProps rule.2))
          m)
      []
  let d2 := cssRules.foldl (fun doc rule => applyCssRule rule.1 rule.2 doc) svgElement
  removeDescTag "style" d2

/-! ### `SVGSanitizer.simplifyIds` (lines 328-383) -/

/-- `isComplexId`: length over 10, or base64-alphabet-like
(`^[A-Za-z0-9+/]+=*$` — note that this matches every plain alphanumeric
identifier). -/
def isBase64Like (s : String) : Bool :=
  let cs := s.toList
  let body := cs.takeWhile (fun c => c.isAlphanum || c = '+' || c = '/')
  (¬ body.isEmpty) && (cs.drop body.length).all (· = '=')

def isComplexId (id : String) : Bool :=
  10 < id.toList.length || isBase64Like id

structure IdState where
  counter : Nat
  idMap : List (String × String)

/-- Phase 1 per-element step: rename a (truthy) complex id to the next
sequential `idN`, recording the mapping. -/
def processIdAttr (st : IdState) (as : List XAttr) : IdState × List XAttr :=
  match getAttrVal as "id" with
  | some v =>
    if v ≠ "" && isComplexId v then
      let newId := "id" ++ toString (st.counter + 1)
      ({ counter := st.counter + 1, idMap := updateAssoc st.idMap v newId },
       setAttrVal as "id" newId)
    else (st, as)
  | none => (st, as)

mutual
def phase1Node (st : IdState) : XNode → IdState × XNode
  | XNode.text s => (st, XNode.text s)
  | XNode.elem t as ch =>
    let r1 := processIdAttr st as
    let r2 := phase1List r1.1 ch
    (r2.1, XNode.elem t r1.2 r2.2)
def phase1List (st : IdState) : List XNode → IdState × List XNode
  | [] => (st, [])
  | n :: ns =>
    let r1 := phase1Node st n
    let r2 := phase1List r1.1 ns
    (r2.1, r1.2 :: r2.2)
end

/-- Reference update (a): elements selected by
`[*|href="#old"], [href="#old"]`; `href || xlink:href` is compared
against `#old` and both present attributes are then rewritten. -/
def hrefFixAttrs (oldId newId : String) (as : List XAttr) : List XAttr :=
  let ref := "#" ++ oldId
  if getAttrVal as "href" == some ref || getAttrVal as "xlink:href" == some ref then
    let hrefVal :=
      match getAttrVal as "href" with
      | some v => if v = "" then (getAttrVal as "xlink:href").getD "" else v
      | none => (getAttrVal as "xlink:href").getD ""
    if hrefVal = ref then
      let as1 := if hasAttr as "href" then setAttrVal as "href" ("#" ++ newId) else as
      if hasAttr as1 "xlink:href" then setAttrVal as1 "xlink:href" ("#" ++ newId) else as1
    else as
  else as

/-- Reference update (b): every attribute value containing `#old` has
its FIRST occurrence replaced (`String.prototype.replace` with a string
pattern). -/
def substrFixAttrs (oldId newId : String) (as : List XAttr) : List XAttr :=
  as.map fun a =>
    if containsList a.value.toList ("#" ++ oldId).toList then
      { a with value := String.mk (replaceFirstList a.value.toList ("#" ++ oldId).toList ("#" ++ newId).toList) }
    else a

/-- `simplifyIds`: rename complex ids of descendants (document order,
counter starting at 0 — a fresh `SVGSanitizer` per document), then per
idMap entry run the href pass followed by the substring pass. -/
def simplifyIds (svgElement : XNode) : XNode :=
  match svgElement with
  | XNode.text s => XNode.text s
  | XNode.elem t as ch =>
    let r := phase1List { counter := 0, idMap := [] } ch
    r.1.idMap.foldl
      (fun doc entry =>
        mapDesc (fun _ attrs => substrFixAttrs entry.1 entry.2 attrs)
          (mapDesc (fun _ attrs => hrefFixAttrs entry.1 entry.2 attrs) doc))
      (XNode.elem t as r.2)

/-! ### `SVGSanitizer.optimizeCoordinates` (lines 388-417) -/

def coordinateAttributes : List String :=
  ["x", "y", "x1", "y1", "x2", "y2", "cx", "cy", "r", "rx", "ry",
   "width", "height", "points", "d", "viewBox"]

/-- `parseFloat(match).toFixed(2)` for a match `ds.fs` (`fs.length ≥ 3`),
computed on decimal digits: round half up to two fractional digits.
(JS resolves exact `.xx5` ties by the binary double value; no input in
this file parses to a tie.) -/
def roundMatch2 (ds fs : List Char) : Nat :=
  digitsValue ds * 100 + digitsValue (fs.take 2) +
    (if 10 ^ (fs.drop 2).length ≤ 2 * digitsValue (fs.drop 2) then 1 else 0)

def renderFixed2 (n : Nat) : String :=
  toString (n / 100) ++ "." ++ padLeftZeros 2 (toString (n % 100))

/-- Global replacement of `(\d+\.\d{3,})` by the rounded value, with the
scanner resuming exactly where the JS regex engine does: after a
successful match, or — when a digit run is followed by a too-short
fraction — right after that run's dot. -/
def ocvAux : Nat → List Char → List Char
  | _, [] => []
  | 0, cs => cs
  | fuel + 1, c :: cs =>
    if c.isDigit then
      let ds := (c :: cs).takeWhile Char.isDigit
      let rest := (c :: cs).dropWhile Char.isDigit
      match rest with
      | '.' :: r2 =>
        let fs := r2.takeWhile Char.isDigit
        if 3 ≤ fs.length then
          (renderFixed2 (roundMatch2 ds fs)).toList ++ ocvAux fuel (r2.dropWhile Char.isDigit)
        else ds ++ '.' :: ocvAux fuel r2
      | _ => ds ++ ocvAux fuel rest
    else c :: ocvAux fuel cs

def optimizeCoordinateValue (v : String) : String :=
  String.mk (ocvAux v.toList.length v.toList)

def optimizeCoordinates (svgElement : XNode) : XNode :=
  mapDesc
    (fun _ as =>
      as.map fun a =>
        if coordinateAttributes.contains a.name && a.value ≠ "" then
          { a with value := optimizeCoordinateValue a.value }
        else a)
    svgElement

/-! ### `SVGSanitizer.replaceNonWebFonts` (lines 422-435) -/

def fontReplacements : List (String × String) :=
  [("Nimbus Sans", "Arial, sans-serif"),
   ("Nimbus Roman", "Times New Roman, serif"),
   ("Nimbus Mono", "Courier New, monospace"),
   ("Liberation Sans", "Arial, sans-serif"),
   ("Liberation Serif", "Times New Roman, serif"),
   ("DejaVu Sans", "Arial, sans-serif"),
   ("DejaVu Serif", "Times New Roman, serif")]

/-- `fontFamily.replace(/['"]/g, '')`. -/
def cleanFontName (v : String) : String :=
  String.mk (v.toList.filter (fun c => c ≠ '"' && c ≠ Char.ofNat 39))

def replaceNonWebFonts (svgElement : XNode) : XNode :=
  mapDesc
    (fun _ as =>
      match getAttrVal as "font-family" with
      | some v =>
        if v ≠ "" then
          match lookupAssoc fontReplacements (cleanFontName v) with
          | some repl => setAttrVal as "font-family" repl
          | none => as
        else as
      | none => as)
    svgElement

/-! ### `SVGSanitizer.ensureSvgAttributes` (lines 440-469) -/

def ensureSvgAttributes : XNode → XNode
  | XNode.text s => XNode.text s
  | XNode.elem t as ch =>
    let as1 :=
      if hasAttr as "xmlns" then as
      else setAttrVal as "xmlns" "http://www.w3.org/2000/svg"
    let width := getAttrVal as1 "width"
    let height := getAttrVal as1 "height"
    let as2 :=
      match width, height with
      | some w, some h =>
        if w ≠ "" && h ≠ "" && ¬ hasAttr as1 "viewBox" then
          match parseFloatStripped w, parseFloatStripped h with
          | some wq, some hq =>
            setAttrVal as1 "viewBox" ("0 0 " ++ jsNumToString wq ++ " " ++ jsNumToString hq)
          | _, _ => as1
        else as1
      | _, _ => as1
    let as3 :=
      if width == some "100%" && height == some "100%" then
        match getAttrVal as2 "viewBox" with
        | some vb =>
          let parts := (splitOnList [' '] vb.toList).map (fun l => jsParseFloat (String.mk l))
          match parts.get? 2, parts.get? 3 with
          | some (some w2), some (some h2) =>
            setAttrVal (setAttrVal as2 "width" (jsNumToString w2)) "height" (jsNumToString h2)
          | _, _ => as2
        | none => as2
      else as2
    XNode.elem t as3 ch

/-! ### `SVGSanitizer.sanitize` (lines 104-151) -/

structure SanitizationOptions where
  removeClipPaths : Bool := true
  inlineCss : Bool := true
  simplifyIds : Bool := true
  optimizeCoordinates : Bool := true
  replaceNonWebFonts : Bool := true

def defaultSanitizationOptions : SanitizationOptions := {}

/-- The structural document transformation performed between parsing and
serialization (steps guarded by the option flags, then the final
attribute normalization). -/
def sanitizeDom (opts : SanitizationOptions) (svgElement : XNode) : XNode :=
  let d1 := if opts.removeClipPaths then removeClipPaths svgElement else svgElement
  let d2 := if opts.inlineCss then inlineCssStyles d1 else d1
  let d3 := if opts.simplifyIds then simplifyIds d2 else d2
  let d4 := if opts.optimizeCoordinates then optimizeCoordinates d3 else d3
  let d5 := if opts.replaceNonWebFonts then replaceNonWebFonts d4 else d4
  ensureSvgAttributes d5

/-- The fallback document of `createFallbackSvg` (lines 474-482): the
source template literal, then `.trim()`. -/
def createFallbackSvg (errorMessage : String) : String :=
  String.mk (listTrim (
    "\n      <svg xmlns=\"http://www.w3.org/2000/svg\" width=\"400\" height=\"300\" viewBox=\"0 0 400 300\">\n        <rect width=\"400\" height=\"300\" fill=\"#f8f9fa\" stroke=\"#dee2e6\"/>\n        <text x=\"200\" y=\"140\" text-anchor=\"middle\" font-size=\"14\" fill=\"#6c757d\">SVG Processing Error</text>\n        <text x=\"200\" y=\"160\" text-anchor=\"middle\" font-size=\"12\" fill=\"#868e96\">" ++ errorMessage ++ "</text>\n      </svg>\n    ").toList)

/-- String-level `sanitize`: DOMPurify (`purify`), the XML parser
(`parse`, `none` for an unparseable document — jsdom then yields a
`parsererror` root) and the serializer (`serialize`) are external
collaborators passed as parameters.  A missing or non-`svg` root raises
`Invalid SVG document`, recovered by the top-level catch into the
fallback document; every other step is total. -/
def sanitizeWith (purify : String → String) (parse : String → Option XNode)
    (serialize : XNode → String) (opts : SanitizationOptions) (svgContent : String) : String :=
  match parse (purify svgContent) with
  | some (XNode.elem "svg" attrs children) =>
    serialize (sanitizeDom opts (XNode.elem "svg" attrs children))
  | _ => createFallbackSvg "Sanitization failed: Invalid SVG document"

/-! ### Reference-integrity observables (for the identifier claims)

These definitions give the claim's notion of "reference" and
"resolves": `href`/`xlink:href` values of the form `#id`, and `url(#id)`
occurrences inside any attribute value; a reference resolves when some
element of the document carries that id. -/

def docIds (n : XNode) : List String :=
  (allElemsNode n).filterMap fun as =>
    match getAttrVal as "id" with
    | some v => if v ≠ "" then some v else none
    | none => none

def hrefRefsOfAttrs (as : List XAttr) : List String :=
  (["href", "xlink:href"].filterMap fun nm =>
    match getAttrVal as nm with
    | some v =>
      match v.toList with
      | '#' :: rest => some (String.mk rest)
      | _ => none
    | none => none)

def urlRefsOfVal (v : String) : List String :=
  match splitOnList "url(#".toList v.toList with
  | [] => []
  | [_] => []
  | _ :: rest =>
    rest.filterMap fun seg =>
      if seg.contains ')' then some (String.mk (seg.takeWhile (· ≠ ')'))) else none

def urlRefsOfAttrs (as : List XAttr) : List String :=
  (as.map (fun a => urlRefsOfVal a.value)).flatten

def docRefs (n : XNode) : List String :=
  ((allElemsNode n).map (fun as => hrefRefsOfAttrs as ++ urlRefsOfAttrs as)).flatten

/-- Every reference of the document resolves to an existing element id. -/
def allRefsResolve (n : XNode) : Bool :=
  (docRefs n).all fun r => (docIds n).contains r

/-! ## The per-file conversion loop of the route handler
(`part_000`, lines 251-321): one `pptx.addSlide()` per uploaded file,
then SVG processing / EMF passthrough into that slide. -/

structure UploadFile where
  name : String
  content : String
  bytes : List Nat

inductive SlideContent where
  | svgImage (data : String) (rect : Option ImageSize)
  | emfImage (data : String) (rect : Option ImageSize)
  | empty

/-- Processing of one uploaded file into its slide's content. -/
def processFile (purify : String → String) (parse : String → Option XNode)
    (serialize : XNode → String) (optimizeFn : String → String → Except String String)
    (file : UploadFile) : SlideContent :=
  match fileExtension file.name with
  | some "svg" =>
    let svgContent := file.content
    let processingOptions := chooseProcessingOptions svgContent
    let processedSvg :=
      processSvgForPptx
        (fun c => sanitizeWith purify parse serialize defaultSanitizationOptions c)
        optimizeFn svgContent processingOptions
    SlideContent.svgImage processedSvg
      (calculateOptimalImageSize processedSvg SLIDE_LAYOUTS.widescreen)
  | some "emf" =>
    SlideContent.emfImage (processEmfForPptx file.bytes).1 (emfSlidePlacement file.bytes)
  | _ => SlideContent.empty

/-- The conversion loop: exactly one slide per uploaded file. -/
def convertFiles (purify : String → String) (parse : String → Option XNode)
    (serialize : XNode → String) (optimizeFn : String → String → Except String String)
    (files : List UploadFile) : List SlideContent :=
  files.map (processFile purify parse serialize optimizeFn)

/-! ## Sanitized normal form

A decidable description of documents on which every pass of
`sanitizeDom` acts as the identity: no clip-path data, no style
elements, no (truthy) complex identifiers, rounding-stable coordinate
values, no substitutable fonts, and an already-normalized root. -/

def attrRoundStable (a : XAttr) : Bool :=
  if coordinateAttributes.contains a.name && a.value ≠ "" then
    optimizeCoordinateValue a.value == a.value
  else true

def descNormalOk (t : String) (as : List XAttr) : Bool :=
  !(hasAttr as "clip-path") && t != "clipPath" && t != "style" &&
  (match getAttrVal as "id" with
   | some v => v == "" || !(isComplexId v)
   | none => true) &&
  as.all attrRoundStable &&
  (match getAttrVal as "font-family" with
   | some v =>
     v == "" || (lookupAssoc fontReplacements (cleanFontName v)).isNone
   | none => true)

def rootNormalOk : XNode → Bool
  | XNode.elem _ as _ =>
    hasAttr as "xmlns" && hasAttr as "viewBox" &&
      !(getAttrVal as "width" == some "100%")
  | XNode.text _ => false

def sanitizeNormalForm (d : XNode) : Bool :=
  rootNormalOk d && allDesc descNormalOk d

/-! ## Concrete documents and layouts used in the theorems below -/

/-- A document with intrinsic size 1600×900 (explicit width/height and
matching viewBox). -/
def svg1600x900 : String :=
  "<svg viewBox=\"0 0 1600 900\" width=\"1600\" height=\"900\"></svg>"

/-- A positive-dimension layout with a sub-0.2 effective margin: content
width 9.8 exceeds the `width − 0.4` cap. -/
def thinMarginLayout : SlideLayout :=
  { width := 10, height := 5.625, margin := 0.1, contentWidth := 9.8, contentHeight := 5.425 }

/-- A positive-dimension layout whose margin exceeds the canvas. -/
def hugeMarginLayout : SlideLayout :=
  { width := 1, height := 1, margin := 5, contentWidth := 1, contentHeight := 1 }

/-- A document whose only complex identifier is referenced twice inside
one attribute value. -/
def dupRefDoc : XNode :=
  XNode.elem "svg" [⟨"xmlns", "http://www.w3.org/2000/svg"⟩, ⟨"viewBox", "0 0 10 10"⟩]
    [XNode.elem "defs" []
       [XNode.elem "linearGradient" [⟨"id", "averylongid12"⟩] []],
     XNode.elem "rect" [⟨"style", "fill:url(#averylongid12);stroke:url(#averylongid12)"⟩] []]

/-- A document with two complex identifiers, one a prefix of the other,
and an `href` reference to the longer one. -/
def prefixRefDoc : XNode :=
  XNode.elem "svg" [⟨"xmlns", "http://www.w3.org/2000/svg"⟩, ⟨"viewBox", "0 0 10 10"⟩]
    [XNode.elem "defs" []
       [XNode.elem "mask" [⟨"id", "alongcomplexid"⟩] [],
        XNode.elem "linearGradient" [⟨"id", "alongcomplexidX"⟩] []],
     XNode.elem "use" [⟨"href", "#alongcomplexidX"⟩] []]

/-- A document whose `x` coordinate value is rewritten differently by a
first and a second rounding pass. -/
def roundTrapDoc : XNode :=
  XNode.elem "svg" [⟨"xmlns", "http://www.w3.org/2000/svg"⟩, ⟨"viewBox", "0 0 10 10"⟩]
    [XNode.elem "rect" [⟨"x", "1.23456.7891"⟩] []]

/-- A document in sanitized normal form (witness for the amended
idempotence claim). -/
def normalFormDoc : XNode :=
  XNode.elem "svg" [⟨"xmlns", "http://www.w3.org/2000/svg"⟩, ⟨"viewBox", "0 0 10 10"⟩]
    [XNode.elem "rect" [⟨"x", "1.25"⟩, ⟨"fill", "#a1b2c3"⟩] []]

/-- A sanitizer output (serialization of the parsed input
`<svg xmlns="http://www.w3.org/2000/svg"><rect height="4" stroke-width="3"/></svg>`):
the root carries no width/height/viewBox, yet the width/height regexes of
`ensureBasicSvgCompatibility` match inside `stroke-width="3"` and
`height="4"`. -/
def strokeWidthSvg : String :=
  "<svg xmlns=\"http://www.w3.org/2000/svg\"><rect height=\"4\" stroke-width=\"3\"/></svg>"

/-! # Theorems

General lemmas about the layout fitter, then the claim theorems. -/

theorem fitImage_w_def (ow oh : ℚ) (L : SlideLayout) :
    (fitImage ow oh L).w =
      if L.contentWidth / L.contentHeight < ow / oh then
        min L.contentWidth (L.width - 0.4)
      else
        min (L.contentHeight * (ow / oh)) (L.width - 0.4) := by
  simp only [fitImage]
  split <;> rfl

theorem fitImage_h_def (ow oh : ℚ) (L : SlideLayout) :
    (fitImage ow oh L).h =
      if L.contentWidth / L.contentHeight < ow / oh then
        min (L.contentWidth / (ow / oh)) (L.height - 0.4)
      else
        min L.contentHeight (L.height - 0.4) := by
  simp only [fitImage]
  split <;> rfl

theorem fitImage_x_def (ow oh : ℚ) (L : SlideLayout) :
    (fitImage ow oh L).x =
      if L.contentWidth / L.contentHeight < ow / oh then
        max 0.2 L.margin
      else
        max 0.2 (L.margin + (L.contentWidth - L.contentHeight * (ow / oh)) / 2) := by
  simp only [fitImage]
  split <;> rfl

theorem fitImage_y_def (ow oh : ℚ) (L : SlideLayout) :
    (fitImage ow oh L).y =
      if L.contentWidth / L.contentHeight < ow / oh then
        max 0.2 (L.margin + (L.contentHeight - L.contentWidth / (ow / oh)) / 2)
      else
        max 0.2 L.margin := by
  simp only [fitImage]
  split <;> rfl

/-- When the intrinsic dimensions are positive and the layout's content
area fits inside the `Math.min` caps, the clamps never bind. -/
theorem fit_noclamp (ow oh : ℚ) (L : SlideLayout)
    (how : 0 < ow) (hoh : 0 < oh)
    (_hcw : 0 < L.contentWidth) (hch : 0 < L.contentHeight)
    (hw4 : L.contentWidth ≤ L.width - 0.4) (hh4 : L.contentHeight ≤ L.height - 0.4) :
    (fitImage ow oh L).w =
      (if L.contentWidth / L.contentHeight < ow / oh then L.contentWidth
       else L.contentHeight * (ow / oh)) ∧
    (fitImage ow oh L).h =
      (if L.contentWidth / L.contentHeight < ow / oh then L.contentWidth / (ow / oh)
       else L.contentHeight) := by
  have hA : (0 : ℚ) < ow / oh := div_pos how hoh
  by_cases hb : L.contentWidth / L.contentHeight < ow / oh
  · have hlt : L.contentWidth / (ow / oh) < L.contentHeight := by
      rw [div_lt_iff₀ hA]
      have h1 : L.contentWidth < ow / oh * L.contentHeight := (div_lt_iff₀ hch).mp hb
      linarith
    constructor
    · rw [fitImage_w_def, if_pos hb, if_pos hb, min_eq_left hw4]
    · rw [fitImage_h_def, if_pos hb, if_pos hb]
      exact min_eq_left (le_trans hlt.le hh4)
  · have hle : L.contentHeight * (ow / oh) ≤ L.contentWidth := by
      have h1 : ow / oh ≤ L.contentWidth / L.contentHeight := not_lt.mp hb
      have h2 : ow / oh * L.contentHeight ≤ L.contentWidth := (le_div_iff₀ hch).mp h1
      linarith
    constructor
    · rw [fitImage_w_def, if_neg hb, if_neg hb]
      exact min_eq_left (le_trans hle hw4)
    · rw [fitImage_h_def, if_neg hb, if_neg hb, min_eq_left hh4]

/-- Exact aspect-ratio preservation under the same conditions. -/
theorem fit_aspect_exact (ow oh : ℚ) (L : SlideLayout)
    (how : 0 < ow) (hoh : 0 < oh)
    (hcw : 0 < L.contentWidth) (hch : 0 < L.contentHeight)
    (hw4 : L.contentWidth ≤ L.width - 0.4) (hh4 : L.contentHeight ≤ L.height - 0.4) :
    (fitImage ow oh L).w / (fitImage ow oh L).h = ow / oh := by
  have hA : (0 : ℚ) < ow / oh := div_pos how hoh
  obtain ⟨hw, hh⟩ := fit_noclamp ow oh L how hoh hcw hch hw4 hh4
  rw [hw, hh]
  by_cases hb : L.contentWidth / L.contentHeight < ow / oh
  · rw [if_pos hb, if_pos hb, div_div_eq_mul_div, mul_div_cancel_left₀ _ hcw.ne']
  · rw [if_neg hb, if_neg hb, mul_comm, mul_div_assoc, div_self hch.ne', mul_one]

/-- Containment of the placement inside the 0.2-inset canvas rectangle,
for layouts whose margins and content area are consistent with the
clamps (both supported layouts satisfy the numeric hypotheses). -/
theorem fit_contained (ow oh : ℚ) (L : SlideLayout)
    (how : 0 < ow) (hoh : 0 < oh)
    (hcw : 0 < L.contentWidth) (hch : 0 < L.contentHeight)
    (hm : 0.2 ≤ L.margin)
    (hxw : L.margin + L.contentWidth ≤ L.width - 0.2)
    (hyh : L.margin + L.contentHeight ≤ L.height - 0.2)
    (hw4 : L.contentWidth ≤ L.width - 0.4) (hh4 : L.contentHeight ≤ L.height - 0.4) :
    0.2 ≤ (fitImage ow oh L).x ∧ 0.2 ≤ (fitImage ow oh L).y ∧
    (fitImage ow oh L).x + (fitImage ow oh L).w ≤ L.width - 0.2 ∧
    (fitImage ow oh L).y + (fitImage ow oh L).h ≤ L.height - 0.2 := by
  have hA : (0 : ℚ) < ow / oh := div_pos how hoh
  obtain ⟨hw, hh⟩ := fit_noclamp ow oh L how hoh hcw hch hw4 hh4
  by_cases hb : L.contentWidth / L.contentHeight < ow / oh
  · -- width-bound
    have ht0 : 0 < L.contentWidth / (ow / oh) := div_pos hcw hA
    have htch : L.contentWidth / (ow / oh) < L.contentHeight := by
      rw [div_lt_iff₀ hA]
      have h1 : L.contentWidth < ow / oh * L.contentHeight := (div_lt_iff₀ hch).mp hb
      linarith
    rw [fitImage_x_def, fitImage_y_def, if_pos hb, if_pos hb, hw, hh, if_pos hb, if_pos hb]
    have hx : max (0.2 : ℚ) L.margin = L.margin := max_eq_right hm
    have hy : max (0.2 : ℚ)
        (L.margin + (L.contentHeight - L.contentWidth / (ow / oh)) / 2) =
        L.margin + (L.contentHeight - L.contentWidth / (ow / oh)) / 2 := by
      apply max_eq_right; linarith
    rw [hx, hy]
    refine ⟨hm, by linarith, by linarith, by linarith⟩
  · -- height-bound
    have hu0 : 0 < L.contentHeight * (ow / oh) := mul_pos hch hA
    have hucw : L.contentHeight * (ow / oh) ≤ L.contentWidth := by
      have h1 : ow / oh ≤ L.contentWidth / L.contentHeight := not_lt.mp hb
      have h2 : ow / oh * L.contentHeight ≤ L.contentWidth := (le_div_iff₀ hch).mp h1
      linarith
    rw [fitImage_x_def, fitImage_y_def, if_neg hb, if_neg hb, hw, hh, if_neg hb, if_neg hb]
    have hy : max (0.2 : ℚ) L.margin = L.margin := max_eq_right hm
    have hx : max (0.2 : ℚ)
        (L.margin + (L.contentWidth - L.contentHeight * (ow / oh)) / 2) =
        L.margin + (L.contentWidth - L.contentHeight * (ow / oh)) / 2 := by
      apply max_eq_right; linarith
    rw [hx, hy]
    refine ⟨by linarith, hm, by linarith, by linarith⟩

/-! ## C1 — the widescreen 1600×900 scenario -/

/-- C1 counterexample: for a 1600×900 document on the widescreen canvas
the fitter does NOT return `w = 9` (the claim's width-bound values); the
computed width is `74/9 ≈ 8.22`. -/
theorem c1_counterexample :
    (calculateOptimalImageSize svg1600x900 SLIDE_LAYOUTS.widescreen).map ImageSize.w =
      some (74 / 9) ∧ (74 : ℚ) / 9 ≠ 9 := by
  constructor
  · have hex : extractSvgSize svg1600x900 = some (1600, 900) := by decide
    have hcond : ¬ (SLIDE_LAYOUTS.widescreen.contentWidth /
        SLIDE_LAYOUTS.widescreen.contentHeight < (1600 : ℚ) / 900) := by
      norm_num [SLIDE_LAYOUTS]
    simp only [calculateOptimalImageSize, hex, Option.map_some']
    rw [fitImage_w_def]
    simp only [if_neg hcond]
    norm_num [SLIDE_LAYOUTS, min_def]
  · norm_num

/-- C1 (amended): for the widescreen canvas (10×5.625, margin 0.5)
and a document with intrinsic size 1600×900 (ratio 1.778 < content
ratio 1.946), `calculateOptimalImageSize` takes the HEIGHT-bound branch
and returns `h = 4.625`, `w = 74/9 ≈ 8.22`, `x = 8/9 ≈ 0.89`,
`y = 0.5`. -/
theorem c1_amended :
    calculateOptimalImageSize svg1600x900 SLIDE_LAYOUTS.widescreen =
      some { x := 8 / 9, y := 1 / 2, w := 74 / 9, h := 37 / 8,
             originalWidth := 1600, originalHeight := 900, aspectRatio := 16 / 9 } := by
  have hex : extractSvgSize svg1600x900 = some (1600, 900) := by decide
  have hcond : ¬ (SLIDE_LAYOUTS.widescreen.contentWidth /
      SLIDE_LAYOUTS.widescreen.contentHeight < (1600 : ℚ) / 900) := by
    norm_num [SLIDE_LAYOUTS]
  simp only [calculateOptimalImageSize, hex, Option.map_some']
  simp only [fitImage, if_neg hcond, Option.some.injEq, ImageSize.mk.injEq]
  refine ⟨?_, ?_, ?_, ?_, ?_, ?_, ?_⟩ <;> norm_num [SLIDE_LAYOUTS, max_def, min_def]

/-! ## C2 — aspect-ratio preservation -/

/-- C2 counterexample: a positive-dimension layout on which the
`Math.min` clamp binds and distorts the aspect ratio by 2 (far beyond
the 0.01 tolerance). -/
theorem c2_counterexample :
    (0 : ℚ) < 9800 ∧ (0 : ℚ) < 100 ∧
    0 < thinMarginLayout.width ∧ 0 < thinMarginLayout.height ∧
    0 < thinMarginLayout.margin ∧ 0 < thinMarginLayout.contentWidth ∧
    0 < thinMarginLayout.contentHeight ∧
    ¬ (|(fitImage 9800 100 thinMarginLayout).w / (fitImage 9800 100 thinMarginLayout).h -
          9800 / 100| ≤ 1 / 100) := by
  have hcond : thinMarginLayout.contentWidth / thinMarginLayout.contentHeight <
      (9800 : ℚ) / 100 := by norm_num [thinMarginLayout]
  have hw : (fitImage 9800 100 thinMarginLayout).w = 9.6 := by
    rw [fitImage_w_def, if_pos hcond]; norm_num [thinMarginLayout, min_def]
  have hh : (fitImage 9800 100 thinMarginLayout).h = 0.1 := by
    rw [fitImage_h_def, if_pos hcond]; norm_num [thinMarginLayout, min_def]
  refine ⟨by norm_num, by norm_num, by norm_num [thinMarginLayout],
    by norm_num [thinMarginLayout], by norm_num [thinMarginLayout],
    by norm_num [thinMarginLayout], by norm_num [thinMarginLayout], ?_⟩
  rw [hw, hh, abs_le]
  intro habs
  obtain ⟨h1, h2⟩ := habs
  norm_num at h1

/-- C2 (amended): aspect-ratio preservation holds — exactly, hence
within the 0.01 tolerance — for every positive intrinsic size on every
layout with positive content dimensions whose content area fits inside
the `Math.min` caps (`contentWidth ≤ width − 0.4`,
`contentHeight ≤ height − 0.4`; both supported layouts qualify). -/
theorem c2_amended (ow oh : ℚ) (L : SlideLayout)
    (how : 0 < ow) (hoh : 0 < oh)
    (hcw : 0 < L.contentWidth) (hch : 0 < L.contentHeight)
    (hw4 : L.contentWidth ≤ L.width - 0.4) (hh4 : L.contentHeight ≤ L.height - 0.4) :
    (fitImage ow oh L).w / (fitImage ow oh L).h = ow / oh ∧
    |(fitImage ow oh L).w / (fitImage ow oh L).h - ow / oh| ≤ 1 / 100 := by
  have h := fit_aspect_exact ow oh L how hoh hcw hch hw4 hh4
  refine ⟨h, ?_⟩
  rw [h, sub_self, abs_zero]
  norm_num

theorem c2_witness :
    (fitImage 1600 900 SLIDE_LAYOUTS.widescreen).w /
        (fitImage 1600 900 SLIDE_LAYOUTS.widescreen).h = 1600 / 900 ∧
    |(fitImage 1600 900 SLIDE_LAYOUTS.widescreen).w /
        (fitImage 1600 900 SLIDE_LAYOUTS.widescreen).h - 1600 / 900| ≤ 1 / 100 :=
  c2_amended 1600 900 SLIDE_LAYOUTS.widescreen (by norm_num) (by norm_num)
    (by norm_num [SLIDE_LAYOUTS]) (by norm_num [SLIDE_LAYOUTS])
    (by norm_num [SLIDE_LAYOUTS]) (by norm_num [SLIDE_LAYOUTS])

/-! ## C7 — containment -/

/-- C7 counterexample: a positive-dimension layout (margin larger than
the canvas) for which the placement leaves the 0.2-inset rectangle. -/
theorem c7_counterexample :
    (0 : ℚ) < 100 ∧ 0 < hugeMarginLayout.width ∧ 0 < hugeMarginLayout.height ∧
    0 < hugeMarginLayout.margin ∧ 0 < hugeMarginLayout.contentWidth ∧
    0 < hugeMarginLayout.contentHeight ∧
    ¬ ((fitImage 100 100 hugeMarginLayout).x + (fitImage 100 100 hugeMarginLayout).w ≤
        hugeMarginLayout.width - 0.2) := by
  have hcond : ¬ (hugeMarginLayout.contentWidth / hugeMarginLayout.contentHeight <
      (100 : ℚ) / 100) := by norm_num [hugeMarginLayout]
  have hx : (fitImage 100 100 hugeMarginLayout).x = 5 := by
    rw [fitImage_x_def, if_neg hcond]; norm_num [hugeMarginLayout, max_def]
  have hw : (fitImage 100 100 hugeMarginLayout).w = 0.6 := by
    rw [fitImage_w_def, if_neg hcond]; norm_num [hugeMarginLayout, min_def]
  refine ⟨by norm_num, by norm_num [hugeMarginLayout], by norm_num [hugeMarginLayout],
    by norm_num [hugeMarginLayout], by norm_num [hugeMarginLayout],
    by norm_num [hugeMarginLayout], ?_⟩
  rw [hx, hw]
  norm_num [hugeMarginLayout]

/-- C7 (amended): on the two supported canvases (widescreen and
standard), for every positive intrinsic size the placement rectangle
lies inside `[0.2, width − 0.2] × [0.2, height − 0.2]`. -/
theorem c7_amended (ow oh : ℚ) (L : SlideLayout)
    (how : 0 < ow) (hoh : 0 < oh)
    (hL : L = SLIDE_LAYOUTS.widescreen ∨ L = SLIDE_LAYOUTS.standard) :
    0.2 ≤ (fitImage ow oh L).x ∧ 0.2 ≤ (fitImage ow oh L).y ∧
    (fitImage ow oh L).x + (fitImage ow oh L).w ≤ L.width - 0.2 ∧
    (fitImage ow oh L).y + (fitImage ow oh L).h ≤ L.height - 0.2 := by
  rcases hL with h | h <;> subst h <;>
    exact fit_contained ow oh _ how hoh (by norm_num [SLIDE_LAYOUTS])
      (by norm_num [SLIDE_LAYOUTS]) (by norm_num [SLIDE_LAYOUTS])
      (by norm_num [SLIDE_LAYOUTS]) (by norm_num [SLIDE_LAYOUTS])
      (by norm_num [SLIDE_LAYOUTS]) (by norm_num [SLIDE_LAYOUTS])

theorem c7_witness :
    0.2 ≤ (fitImage 100 50 SLIDE_LAYOUTS.widescreen).x ∧
    0.2 ≤ (fitImage 100 50 SLIDE_LAYOUTS.widescreen).y ∧
    (fitImage 100 50 SLIDE_LAYOUTS.widescreen).x + (fitImage 100 50 SLIDE_LAYOUTS.widescreen).w ≤
      SLIDE_LAYOUTS.widescreen.width - 0.2 ∧
    (fitImage 100 50 SLIDE_LAYOUTS.widescreen).y + (fitImage 100 50 SLIDE_LAYOUTS.widescreen).h ≤
      SLIDE_LAYOUTS.widescreen.height - 0.2 :=
  c7_amended 100 50 SLIDE_LAYOUTS.widescreen (by norm_num) (by norm_num) (Or.inl rfl)

/-! ## C10 — the clamps never bind on the supported canvases -/

/-- C10: on both supported canvases, for every positive intrinsic size
the `Math.min` clamps never bind: `w` and `h` equal the unclamped fit
dimensions of the taken branch, and the aspect ratio is preserved
exactly. -/
theorem c10_noclamp (ow oh : ℚ) (L : SlideLayout)
    (how : 0 < ow) (hoh : 0 < oh)
    (hL : L = SLIDE_LAYOUTS.widescreen ∨ L = SLIDE_LAYOUTS.standard) :
    (fitImage ow oh L).w =
      (if L.contentWidth / L.contentHeight < ow / oh then L.contentWidth
       else L.contentHeight * (ow / oh)) ∧
    (fitImage ow oh L).h =
      (if L.contentWidth / L.contentHeight < ow / oh then L.contentWidth / (ow / oh)
       else L.contentHeight) ∧
    (fitImage ow oh L).w / (fitImage ow oh L).h = ow / oh := by
  have hnum : 0 < L.contentWidth ∧ 0 < L.contentHeight ∧
      L.contentWidth ≤ L.width - 0.4 ∧ L.contentHeight ≤ L.height - 0.4 := by
    rcases hL with h | h <;> subst h <;> norm_num [SLIDE_LAYOUTS]
  obtain ⟨h1, h2, h3, h4⟩ := hnum
  obtain ⟨hww, hhh⟩ := fit_noclamp ow oh L how hoh h1 h2 h3 h4
  exact ⟨hww, hhh, fit_aspect_exact ow oh L how hoh h1 h2 h3 h4⟩

theorem c10_witness :
    (0 : ℚ) < 300 ∧ (0 : ℚ) < 200 ∧
    (fitImage 300 200 SLIDE_LAYOUTS.widescreen).w /
      (fitImage 300 200 SLIDE_LAYOUTS.widescreen).h = 300 / 200 :=
  ⟨by norm_num, by norm_num,
    (c10_noclamp 300 200 SLIDE_LAYOUTS.widescreen (by norm_num) (by norm_num)
      (Or.inl rfl)).2.2⟩

/-! ## C8 — width/height attributes take priority over the viewBox -/

/-- C8: when the width and height attribute regexes both match, the
extracted size is a function of the two captures alone (any two
documents with the same captures — in particular with different or
absent viewBoxes — extract the same size), and when either capture
fails to parse the 576×432 defaults are kept. -/
theorem c8_priority (s1 s2 a b : String)
    (h1w : attrCapture s1 "width" = some a) (h1h : attrCapture s1 "height" = some b)
    (h2w : attrCapture s2 "width" = some a) (h2h : attrCapture s2 "height" = some b) :
    extractSvgSize s1 = extractSvgSize s2 ∧
    ((parseFloatStripped a = none ∨ parseFloatStripped b = none) →
      extractSvgSize s1 = some (576, 432)) := by
  constructor
  · simp only [extractSvgSize, h1w, h1h, h2w, h2h]
  · intro hp
    simp only [extractSvgSize, h1w, h1h]
    rcases hp with hp | hp
    · cases hpb : parseFloatStripped b <;> simp [hp, hpb]
    · cases hpa : parseFloatStripped a <;> simp [hpa, hp]

theorem c8_witness :
    extractSvgSize "<svg width=\"abc\" height=\"def\" viewBox=\"0 0 50 60\"></svg>" =
      extractSvgSize "<svg width=\"abc\" height=\"def\"></svg>" :=
  (c8_priority _ _ "abc" "def" (by decide) (by decide) (by decide) (by decide)).1

/-! ## C9 — EMF placement ignores the EMF bytes -/

/-- C9: the placement of an `.emf` slide is computed from the fixed
virtual 1600×900 document, so it is identical for any two EMF byte
buffers. -/
theorem c9_emf_placement (b1 b2 : List Nat) :
    emfSlidePlacement b1 = emfSlidePlacement b2 ∧
    emfSlidePlacement b1 = calculateOptimalImageSize emfVirtualSvg SLIDE_LAYOUTS.widescreen ∧
    emfSlidePlacement b1 = some (fitImage 1600 900 SLIDE_LAYOUTS.widescreen) := by
  refine ⟨rfl, rfl, ?_⟩
  have hex : extractSvgSize emfVirtualSvg = some (1600, 900) := by decide
  simp [emfSlidePlacement, calculateOptimalImageSize, hex]

/-! ## C5 — SVGO failure fallback -/

/-- C5 counterexample: with a failing optimizer, the pipeline's output
for the sanitizer output `strokeWidthSvg` is NOT byte-identical to it —
the always-run final compatibility pass adds a `viewBox` synthesized
from the `stroke-width`/`height` regex matches. -/
theorem c5_counterexample :
    processSvgForPptx (fun _ => strokeWidthSvg) (fun _ _ => Except.error "SVGO failed")
        "<input>" { optimization := "compatible", sanitization := true } ≠ strokeWidthSvg := by
  decide

/-- C5 (amended): when the optimization step raises any error, the
pipeline's output equals `ensureBasicSvgCompatibility` applied to the
sanitized string — exactly the output produced when the optimization
step is skipped, independent of the optimizer and of which error it
raised; the failed attempt itself has no effect, but the final
compatibility pass still runs and may add a namespace or viewBox. -/
theorem c5_amended (sanitizeFn : String → String)
    (optimizeFn optimizeFn2 : String → String → Except String String)
    (svgContent : String) (options : SvgProcessingOptions) (e e2 : String)
    (hfail : optimizeFn options.optimization
        (if options.sanitization then sanitizeFn svgContent else svgContent) =
      Except.error e)
    (hfail2 : optimizeFn2 options.optimization
        (if options.sanitization then sanitizeFn svgContent else svgContent) =
      Except.error e2) :
    processSvgForPptx sanitizeFn optimizeFn svgContent options =
      ensureBasicSvgCompatibility
        (if options.sanitization then sanitizeFn svgContent else svgContent) ∧
    processSvgForPptx sanitizeFn optimizeFn svgContent options =
      processSvgForPptx sanitizeFn optimizeFn2 svgContent options := by
  constructor
  · simp only [processSvgForPptx, hfail]
  · simp only [processSvgForPptx, hfail, hfail2]

theorem c5_witness :
    processSvgForPptx (fun _ => strokeWidthSvg) (fun _ _ => Except.error "SVGO failed")
        "<input>" { optimization := "compatible", sanitization := true } =
      ensureBasicSvgCompatibility strokeWidthSvg ∧
    processSvgForPptx (fun _ => strokeWidthSvg) (fun _ _ => Except.error "SVGO failed")
        "<input>" { optimization := "compatible", sanitization := true } =
      processSvgForPptx (fun _ => strokeWidthSvg) (fun _ _ => Except.error "plugin crash")
        "<input>" { optimization := "compatible", sanitization := true } :=
  c5_amended (fun _ => strokeWidthSvg) (fun _ _ => Except.error "SVGO failed")
    (fun _ _ => Except.error "plugin crash") "<input>"
    { optimization := "compatible", sanitization := true } "SVGO failed" "plugin crash" rfl rfl

/-! ## C4 — unparseable input yields the diagnostic document -/

set_option maxRecDepth 16000 in
/-- C4: for every input whose (purified) markup the XML parser rejects,
the sanitizer returns the 400×300 diagnostic fallback instead of
raising, and the conversion loop still produces exactly one slide per
uploaded file. -/
theorem c4_fallback (purify : String → String) (parse : String → Option XNode)
    (serialize : XNode → String) (opts : SanitizationOptions) (s : String)
    (optimizeFn : String → String → Except String String) (files : List UploadFile)
    (h : parse (purify s) = none) :
    sanitizeWith purify parse serialize opts s =
      createFallbackSvg "Sanitization failed: Invalid SVG document" ∧
    containsStr (sanitizeWith purify parse serialize opts s) "viewBox=\"0 0 400 300\"" = true ∧
    containsStr (sanitizeWith purify parse serialize opts s) "width=\"400\" height=\"300\"" = true ∧
    (convertFiles purify parse serialize optimizeFn files).length = files.length := by
  have hs : sanitizeWith purify parse serialize opts s =
      createFallbackSvg "Sanitization failed: Invalid SVG document" := by
    simp only [sanitizeWith, h]
  refine ⟨hs, ?_, ?_, ?_⟩
  · rw [hs]; decide
  · rw [hs]; decide
  · simp [convertFiles]

set_option maxRecDepth 16000 in
theorem c4_witness :
    sanitizeWith (fun s => s) (fun _ => none) (fun _ => "") defaultSanitizationOptions
        "<svg truncat" =
      createFallbackSvg "Sanitization failed: Invalid SVG document" ∧
    (convertFiles (fun s => s) (fun _ => none) (fun _ => "") (fun _ c => Except.ok c)
        [{ name := "chart.svg", content := "<svg truncat", bytes := [] }]).length = 1 :=
  ⟨(c4_fallback (fun s => s) (fun _ => none) (fun _ => "") defaultSanitizationOptions
      "<svg truncat" (fun _ c => Except.ok c) [] rfl).1,
   (c4_fallback (fun s => s) (fun _ => none) (fun _ => "") defaultSanitizationOptions
      "<svg truncat" (fun _ c => Except.ok c)
      [{ name := "chart.svg", content := "<svg truncat", bytes := [] }] rfl).2.2.2⟩

/-! ## C3 — identifier simplification dangles duplicated references -/

set_option maxRecDepth 16000 in
/-- C3: reference integrity is violated by `simplifyIds` in both corner
cases the claim names.  In `dupRefDoc` every reference resolves before
the pass, yet after it the second `url(#averylongid12)` occurrence still
names the old identifier (the element now carries `id1`):
`String.prototype.replace` rewrites only the first occurrence.  In
`prefixRefDoc` (identifier `alongcomplexid` a prefix of
`alongcomplexidX`) the substring pass rewrites `#alongcomplexidX` into
the dangling `#id1X`. -/
theorem c3_dangling_reference :
    allRefsResolve dupRefDoc = true ∧
    allRefsResolve (simplifyIds dupRefDoc) = false ∧
    docIds (simplifyIds dupRefDoc) = ["id1"] ∧
    (docRefs (simplifyIds dupRefDoc)).contains "averylongid12" = true ∧
    allRefsResolve prefixRefDoc = true ∧
    allRefsResolve (simplifyIds prefixRefDoc) = false ∧
    docIds (simplifyIds prefixRefDoc) = ["id1", "id2"] ∧
    docRefs (simplifyIds prefixRefDoc) = ["id1X"] := by
  refine ⟨by decide, by decide, by decide, by decide, by decide, by decide, by decide, by decide⟩

/-! ## C6 — idempotence of sanitization

First the counterexample (a second pass rewrites a coordinate value the
first pass produced), then identity lemmas for each structural pass on
normal-form documents, combined into the amended claim. -/

/-- C6 counterexample: sanitization is not idempotent — on
`roundTrapDoc` the first pass rewrites `x` to `1.23.7891` and a second
pass rewrites that to `1.23.79`. -/
theorem c6_counterexample :
    sanitizeDom defaultSanitizationOptions (sanitizeDom defaultSanitizationOptions roundTrapDoc) ≠
      sanitizeDom defaultSanitizationOptions roundTrapDoc := by
  intro h
  have hA : attrValAt (sanitizeDom defaultSanitizationOptions roundTrapDoc) 0 "x" =
      some "1.23.7891" := by decide
  have hB : attrValAt
      (sanitizeDom defaultSanitizationOptions (sanitizeDom defaultSanitizationOptions roundTrapDoc))
      0 "x" = some "1.23.79" := by decide
  have h2 : attrValAt
      (sanitizeDom defaultSanitizationOptions (sanitizeDom defaultSanitizationOptions roundTrapDoc))
      0 "x" = attrValAt (sanitizeDom defaultSanitizationOptions roundTrapDoc) 0 "x" := by rw [h]
  rw [hA, hB] at h2
  exact absurd h2 (by decide)

theorem getAttrVal_eq_none (as : List XAttr) (n : String) (h : hasAttr as n = false) :
    getAttrVal as n = none := by
  unfold hasAttr at h
  unfold getAttrVal
  cases hf : as.find? (fun a => a.name = n) <;> simp [hf] at h ⊢

theorem list_map_self {α : Type} (l : List α) (g : α → α) (h : ∀ a ∈ l, g a = a) :
    l.map g = l := by
  induction l with
  | nil => rfl
  | cons a l ih =>
    simp only [List.map]
    rw [h a (List.mem_cons_self a l), ih (fun b hb => h b (List.mem_cons_of_mem a hb))]

mutual
theorem mapAttrsNode_id (f : String → List XAttr → List XAttr)
    (p : String → List XAttr → Bool) (hf : ∀ t as, p t as = true → f t as = as) :
    ∀ n : XNode, allDescNode p n = true → mapAttrsNode f n = n
  | XNode.text _, _ => rfl
  | XNode.elem t as ch, h => by
    simp only [allDescNode, Bool.and_eq_true] at h
    simp only [mapAttrsNode]
    rw [hf t as h.1, mapAttrsList_id f p hf ch h.2]
theorem mapAttrsList_id (f : String → List XAttr → List XAttr)
    (p : String → List XAttr → Bool) (hf : ∀ t as, p t as = true → f t as = as) :
    ∀ ns : List XNode, allDescList p ns = true → mapAttrsList f ns = ns
  | [], _ => rfl
  | n :: ns, h => by
    simp only [allDescList, Bool.and_eq_true] at h
    simp only [mapAttrsList]
    rw [mapAttrsNode_id f p hf n h.1, mapAttrsList_id f p hf ns h.2]
end

theorem mapDesc_id (f : String → List XAttr → List XAttr)
    (p : String → List XAttr → Bool) (hf : ∀ t as, p t as = true → f t as = as) :
    ∀ d : XNode, allDesc p d = true → mapDesc f d = d
  | XNode.text _, _ => rfl
  | XNode.elem t as ch, h => by
    simp only [allDesc] at h
    simp only [mapDesc]
    rw [mapAttrsList_id f p hf ch h]

mutual
theorem remTagNode_id (t0 : String) (p : String → List XAttr → Bool)
    (hp : ∀ t as, p t as = true → t ≠ t0) :
    ∀ n : XNode, allDescNode p n = true → remTagNode t0 n = n
  | XNode.text _, _ => rfl
  | XNode.elem t as ch, h => by
    simp only [allDescNode, Bool.and_eq_true] at h
    simp only [remTagNode]
    rw [remTagList_id t0 p hp ch h.2]
theorem remTagList_id (t0 : String) (p : String → List XAttr → Bool)
    (hp : ∀ t as, p t as = true → t ≠ t0) :
    ∀ ns : List XNode, allDescList p ns = true → remTagList t0 ns = ns
  | [], _ => rfl
  | XNode.text s :: ns, h => by
    simp only [allDescList, Bool.and_eq_true] at h
    simp only [remTagList]
    rw [remTagList_id t0 p hp ns h.2]
  | XNode.elem t as ch :: ns, h => by
    have hn : allDescNode p (XNode.elem t as ch) = true ∧ allDescList p ns = true := by
      simpa only [allDescList, Bool.and_eq_true] using h
    have hpt : p t as = true := by
      have := hn.1
      simp only [allDescNode, Bool.and_eq_true] at this
      exact this.1
    simp only [remTagList]
    rw [if_neg (hp t as hpt), remTagNode_id t0 p hp _ hn.1, remTagList_id t0 p hp ns hn.2]
end

theorem removeDescTag_id (t0 : String) (p : String → List XAttr → Bool)
    (hp : ∀ t as, p t as = true → t ≠ t0) :
    ∀ d : XNode, allDesc p d = true → removeDescTag t0 d = d
  | XNode.text _, _ => rfl
  | XNode.elem t as ch, h => by
    simp only [allDesc] at h
    simp only [removeDescTag]
    rw [remTagList_id t0 p hp ch h]

mutual
theorem styleTextsNode_nil (p : String → List XAttr → Bool)
    (hp : ∀ t as, p t as = true → t ≠ "style") :
    ∀ n : XNode, allDescNode p n = true → styleTextsNode n = []
  | XNode.text _, _ => rfl
  | XNode.elem t as ch, h => by
    simp only [allDescNode, Bool.and_eq_true] at h
    simp only [styleTextsNode]
    rw [if_neg (hp t as h.1), styleTextsList_nil p hp ch h.2]
    rfl
theorem styleTextsList_nil (p : String → List XAttr → Bool)
    (hp : ∀ t as, p t as = true → t ≠ "style") :
    ∀ ns : List XNode, allDescList p ns = true → styleTextsList ns = []
  | [], _ => rfl
  | n :: ns, h => by
    simp only [allDescList, Bool.and_eq_true] at h
    simp only [styleTextsList]
    rw [styleTextsNode_nil p hp n h.1, styleTextsList_nil p hp ns h.2]
    rfl
end

mutual
theorem phase1Node_id (p : String → List XAttr → Bool)
    (hp : ∀ st t as, p t as = true → processIdAttr st as = (st, as)) :
    ∀ (st : IdState) (n : XNode), allDescNode p n = true → phase1Node st n = (st, n)
  | _, XNode.text _, _ => rfl
  | st, XNode.elem t as ch, h => by
    simp only [allDescNode, Bool.and_eq_true] at h
    simp only [phase1Node]
    rw [hp st t as h.1, phase1List_id p hp st ch h.2]
theorem phase1List_id (p : String → List XAttr → Bool)
    (hp : ∀ st t as, p t as = true → processIdAttr st as = (st, as)) :
    ∀ (st : IdState) (ns : List XNode), allDescList p ns = true → phase1List st ns = (st, ns)
  | _, [], _ => rfl
  | st, n :: ns, h => by
    simp only [allDescList, Bool.and_eq_true] at h
    simp only [phase1List]
    rw [phase1Node_id p hp st n h.1, phase1List_id p hp st ns h.2]
end

/-! ### Normal-form components and per-pass identity -/

theorem descNormalOk_parts (t : String) (as : List XAttr) (h : descNormalOk t as = true) :
    hasAttr as "clip-path" = false ∧ t ≠ "clipPath" ∧ t ≠ "style" ∧
    (match getAttrVal as "id" with
     | some v => (v == "" || !(isComplexId v)) = true
     | none => True) ∧
    as.all attrRoundStable = true ∧
    (match getAttrVal as "font-family" with
     | some v =>
       (v == "" || (lookupAssoc fontReplacements (cleanFontName v)).isNone) = true
     | none => True) := by
  simp only [descNormalOk, Bool.and_eq_true, Bool.not_eq_true', bne_iff_ne, ne_eq] at h
  obtain ⟨⟨⟨⟨⟨h1, h2⟩, h3⟩, h4⟩, h5⟩, h6⟩ := h
  refine ⟨h1, h2, h3, ?_, h5, ?_⟩
  · cases hg : getAttrVal as "id" with
    | none => trivial
    | some v => rw [hg] at h4; exact h4
  · cases hg : getAttrVal as "font-family" with
    | none => trivial
    | some v => rw [hg] at h6; exact h6

theorem clipAttrStep_id (t : String) (as : List XAttr) (h : descNormalOk t as = true) :
    clipAttrStep t as = as := by
  have hclip := (descNormalOk_parts t as h).1
  unfold clipAttrStep
  rw [getAttrVal_eq_none as "clip-path" hclip]

theorem removeClipPaths_id (d : XNode) (hd : allDesc descNormalOk d = true) :
    removeClipPaths d = d := by
  unfold removeClipPaths
  rw [mapDesc_id clipAttrStep descNormalOk clipAttrStep_id d hd]
  exact removeDescTag_id "clipPath" descNormalOk
    (fun t as h => (descNormalOk_parts t as h).2.1) d hd

theorem inlineCssStyles_id (d : XNode) (hd : allDesc descNormalOk d = true) :
    inlineCssStyles d = d := by
  have hne : ∀ t as, descNormalOk t as = true → t ≠ "style" :=
    fun t as h => (descNormalOk_parts t as h).2.2.1
  have hstyle : styleTexts d = [] := by
    cases d with
    | text s => rfl
    | elem t as ch =>
      simp only [allDesc] at hd
      simp only [styleTexts]
      exact styleTextsList_nil descNormalOk hne ch hd
  simp only [inlineCssStyles, hstyle, List.foldl]
  exact removeDescTag_id "style" descNormalOk hne d hd

theorem processIdAttr_id_of (st : IdState) (as : List XAttr)
    (hid : (match getAttrVal as "id" with
            | some v => (v == "" || !(isComplexId v)) = true
            | none => True)) :
    processIdAttr st as = (st, as) := by
  unfold processIdAttr
  cases hg : getAttrVal as "id" with
  | none => rfl
  | some v =>
    rw [hg] at hid
    by_cases hv : v = ""
    · subst hv; simp
    · have hc : isComplexId v = false := by
        simp only [Bool.or_eq_true, beq_iff_eq, Bool.not_eq_true'] at hid
        tauto
      simp [hv, hc]

theorem simplifyIds_id (d : XNode) (hd : allDesc descNormalOk d = true) :
    simplifyIds d = d := by
  cases d with
  | text s => rfl
  | elem t as ch =>
    simp only [allDesc] at hd
    simp only [simplifyIds]
    rw [phase1List_id descNormalOk
      (fun st t2 as2 h => processIdAttr_id_of st as2 (descNormalOk_parts t2 as2 h).2.2.2.1)
      { counter := 0, idMap := [] } ch hd]
    rfl

theorem optimizeCoordinates_id (d : XNode) (hd : allDesc descNormalOk d = true) :
    optimizeCoordinates d = d := by
  unfold optimizeCoordinates
  apply mapDesc_id _ descNormalOk ?_ d hd
  intro t as h
  have hE := (descNormalOk_parts t as h).2.2.2.2.1
  apply list_map_self
  intro a ha
  have hra : attrRoundStable a = true := by
    rw [List.all_eq_true] at hE
    exact hE a ha
  unfold attrRoundStable at hra
  by_cases hcond : (coordinateAttributes.contains a.name && a.value ≠ "") = true
  · rw [if_pos hcond] at hra
    rw [if_pos hcond]
    have : optimizeCoordinateValue a.value = a.value := by
      simpa only [beq_iff_eq] using hra
    rw [this]
  · rw [if_neg hcond]

theorem replaceNonWebFonts_id (d : XNode) (hd : allDesc descNormalOk d = true) :
    replaceNonWebFonts d = d := by
  unfold replaceNonWebFonts
  apply mapDesc_id _ descNormalOk ?_ d hd
  intro t as h
  have hF := (descNormalOk_parts t as h).2.2.2.2.2
  cases hg : getAttrVal as "font-family" with
  | none => rfl
  | some v =>
    rw [hg] at hF
    by_cases hv : v = ""
    · subst hv; simp
    · have hlook : lookupAssoc fontReplacements (cleanFontName v) = none := by
        simp only [Bool.or_eq_true, beq_iff_eq, Option.isNone_iff_eq_none] at hF
        tauto
      simp [hv, hlook]

theorem ensureSvgAttributes_id (t : String) (as : List XAttr) (ch : List XNode)
    (hx : hasAttr as "xmlns" = true) (hv : hasAttr as "viewBox" = true)
    (hw : (getAttrVal as "width" == some "100%") = false) :
    ensureSvgAttributes (XNode.elem t as ch) = XNode.elem t as ch := by
  simp only [ensureSvgAttributes, hx, if_true]
  rcases hgw : getAttrVal as "width" with _ | w <;>
    rcases hgh : getAttrVal as "height" with _ | h2 <;>
      simp [hgw, hgh, hv, hgw ▸ hw]

theorem sanitizeDom_fixed (d : XNode) (h : sanitizeNormalForm d = true) :
    sanitizeDom defaultSanitizationOptions d = d := by
  have hparts : rootNormalOk d = true ∧ allDesc descNormalOk d = true := by
    simpa only [sanitizeNormalForm, Bool.and_eq_true] using h
  obtain ⟨hr, hd⟩ := hparts
  have hstep : sanitizeDom defaultSanitizationOptions d =
      ensureSvgAttributes (replaceNonWebFonts (optimizeCoordinates (simplifyIds
        (inlineCssStyles (removeClipPaths d))))) := rfl
  rw [hstep, removeClipPaths_id d hd, inlineCssStyles_id d hd, simplifyIds_id d hd,
      optimizeCoordinates_id d hd, replaceNonWebFonts_id d hd]
  cases d with
  | text s => simp [rootNormalOk] at hr
  | elem t as ch =>
    simp only [rootNormalOk, Bool.and_eq_true, Bool.not_eq_true'] at hr
    exact ensureSvgAttributes_id t as ch hr.1.1 hr.1.2 hr.2

/-- C6 (amended): sanitization is idempotent on documents already in
sanitized normal form — no clip-path data or clipPath/style elements, no
truthy complex identifiers, rounding-stable coordinate values, no
substitutable font families, and a root that carries `xmlns` and
`viewBox` with a width other than `100%`; on such documents the
transformation is the identity, hence a second application changes
nothing.  (In general the claim is false: see the counterexample.) -/
theorem c6_amended (d : XNode) (h : sanitizeNormalForm d = true) :
    sanitizeDom defaultSanitizationOptions (sanitizeDom defaultSanitizationOptions d) =
      sanitizeDom defaultSanitizationOptions d := by
  rw [sanitizeDom_fixed d h, sanitizeDom_fixed d h]

theorem c6_witness :
    sanitizeNormalForm normalFormDoc = true ∧
    sanitizeDom defaultSanitizationOptions (sanitizeDom defaultSanitizationOptions normalFormDoc) =
      sanitizeDom defaultSanitizationOptions normalFormDoc :=
  ⟨by decide, c6_amended normalFormDoc (by decide)⟩
